import Mathlib

/-!
# Shoe-store backend: order pricing, coupon application and payment confirmation

A shallow embedding, in Lean 4, of the core order/coupon/payment workflow of the
shoe-store backend:

* `models/Product` (the product model with `stockVariants`, the pre-save hook,
  `getStockForVariant`, `updateVariantStock`);
* `models/Coupon` (the coupon schema, the `isCurrentlyValid` virtual and the
  `calculateDiscount` method);
* `models/Order` and `models/DeliveryCharge`;
* `services/OrderService` (`validateAndCalculateOrder`, `confirmPayment`,
  `cancelOrder`);
* `services/PaymentService.verifyPaymentSignature`.

JavaScript numbers are modelled as rational numbers (`ℚ`).  Mongoose documents
are modelled as Lean structures holding exactly the schema's fields; reading a
path that is *not* declared in the schema yields JavaScript `undefined`, which
is modelled explicitly (see the `Coupon.minPurchaseAmount` block below).
Database collections are lists; `findOne`/`findById` are `List.find?`;
`save` replaces the document with the same id (running the schema's pre-save
hook where one exists).  External effects (the HMAC of the payment gateway,
refund calls) enter as function parameters.
-/

namespace ShoeStore

/-- Decidable equality of `Except` values, so that concrete runs of the
embedded fallible operations can be checked by `decide`. -/
instance {ε α : Type _} [DecidableEq ε] [DecidableEq α] : DecidableEq (Except ε α) := fun x y =>
  match x, y with
  | .ok a, .ok b =>
    if h : a = b then .isTrue (congrArg _ h)
    else .isFalse (fun he => h (Except.ok.inj he))
  | .error a, .error b =>
    if h : a = b then .isTrue (congrArg _ h)
    else .isFalse (fun he => h (Except.error.inj he))
  | .ok _, .error _ => .isFalse Except.noConfusion
  | .error _, .ok _ => .isFalse Except.noConfusion

/-! ## Computable rational arithmetic

The arithmetic of `ℚ` in Batteries (`Rat.add`, `Rat.mul`, …) is marked
`@[irreducible]`, so concrete runs of the embedded code could not be evaluated
by `decide`.  The embedding therefore computes with the following wrappers,
each proved equal to the corresponding `ℚ` operation, so that symbolic
theorems can be stated with ordinary `ℚ` arithmetic. -/

/-- Reducible addition on `ℚ` (equal to `a + b`, see `qadd_eq`). -/
def qadd (a b : ℚ) : ℚ := mkRat (a.num * b.den + b.num * a.den) (a.den * b.den)

/-- Reducible subtraction on `ℚ` (equal to `a - b`, see `qsub_eq`). -/
def qsub (a b : ℚ) : ℚ := mkRat (a.num * b.den - b.num * a.den) (a.den * b.den)

/-- Reducible multiplication on `ℚ` (equal to `a * b`, see `qmul_eq`). -/
def qmul (a b : ℚ) : ℚ := mkRat (a.num * b.num) (a.den * b.den)

/-- Reducible inverse on `ℚ` (equal to `a⁻¹`, see `qinv_eq`). -/
def qinv (a : ℚ) : ℚ := Rat.divInt a.den a.num

/-- Reducible division on `ℚ` (equal to `a / b`, see `qdiv_eq`). -/
def qdiv (a b : ℚ) : ℚ := qmul a (qinv b)

theorem qadd_eq (a b : ℚ) : qadd a b = a + b := (Rat.add_def' a b).symm

theorem qsub_eq (a b : ℚ) : qsub a b = a - b := (Rat.sub_def' a b).symm

theorem qmul_eq (a b : ℚ) : qmul a b = a * b := by
  rw [qmul, ← Rat.mkRat_mul_mkRat, Rat.mkRat_self, Rat.mkRat_self]

theorem qinv_eq (a : ℚ) : qinv a = a⁻¹ := (Rat.inv_def a).symm

theorem qdiv_eq (a b : ℚ) : qdiv a b = a / b := by
  rw [qdiv, qmul_eq, qinv_eq, div_eq_mul_inv]

/-- `Math.max` on two numbers (NaN is outside the model). -/
def qmax (a b : ℚ) : ℚ := if a ≤ b then b else a

/-- `Math.min` on two numbers. -/
def qmin (a b : ℚ) : ℚ := if a ≤ b then a else b

theorem qmax_eq (a b : ℚ) : qmax a b = max a b := (max_def a b).symm

theorem qmin_eq (a b : ℚ) : qmin a b = min a b := (min_def a b).symm

/-- `Math.round`: half-up rounding, `⌊x + 1/2⌋` (for every non-NaN input;
`Math.round(-0.5) = -0 = ⌊0⌋`, so the formula agrees everywhere). -/
def jsRound (q : ℚ) : ℤ := Rat.floor (qadd q (mkRat 1 2))

theorem ratFloor_eq_intFloor (q : ℚ) : Rat.floor q = ⌊q⌋ := by
  rw [Rat.floor_def', ← Rat.floor_def]

theorem jsRound_eq (q : ℚ) : jsRound q = ⌊q + 1/2⌋ := by
  have hmk : (mkRat 1 2 : ℚ) = 1/2 := by
    rw [Rat.mkRat_eq_divInt, Rat.divInt_eq_div]; norm_num
  rw [jsRound, qadd_eq, ratFloor_eq_intFloor, hmk]

/-- Rounding to two decimal places with `Math.round(x * 100) / 100`, as the
coupon model does for its monetary outputs. -/
def roundTo2 (q : ℚ) : ℚ := qdiv (jsRound (qmul q 100) : ℤ) 100

theorem roundTo2_eq (q : ℚ) : roundTo2 q = (⌊q * 100 + 1/2⌋ : ℚ) / 100 := by
  rw [roundTo2, qdiv_eq, jsRound_eq, qmul_eq]

/-- `String.prototype.toLowerCase` (ASCII range, which covers the data of this
repository). `String.toLower` itself is compiled by well-founded recursion and
does not reduce, hence this structural version. -/
def jsToLower (s : String) : String := ⟨s.data.map Char.toLower⟩

/-- Truthiness of a possibly-`undefined` JavaScript number: `undefined`, `0`
(and `NaN`, outside the model) are falsy. -/
def truthyNum : Option ℚ → Bool
  | none => false
  | some q => q != 0

/-- `a >= b` on possibly-`undefined` numbers: any comparison involving
`undefined` is `false` in JavaScript. -/
def jsGe : Option ℚ → Option ℚ → Bool
  | some a, some b => a ≥ b
  | _, _ => false

/-- `a < b` on possibly-`undefined` numbers (`false` when either side is
`undefined`). -/
def jsLt : Option ℚ → Option ℚ → Bool
  | some a, some b => a < b
  | _, _ => false

/-- `a > b` on possibly-`undefined` numbers (`false` when either side is
`undefined`). -/
def jsGt : Option ℚ → Option ℚ → Bool
  | some a, some b => a > b
  | _, _ => false

/-! ## The product model (`models/Product.js`)

Fields of the product schema that no part of the verified core reads
(slug, description, brand, rating, …) are omitted; `sku` generation in the
pre-save hook is likewise outside the model.  Variant sizes are `Number`s in
the schema; cart payloads carry them as strings and the service applies
`parseFloat`, which this model treats as the identity on already-numeric
sizes. -/

/-- One `(size, color)` stock variant of a product (`stockVariantSchema`). -/
structure StockVariant where
  size : ℚ
  color : String
  stock : ℚ
deriving Repr, DecidableEq

/-- The matching predicate used by both `getStockForVariant` and
`updateVariantStock`: strict equality on the size, case-insensitive
comparison of the color. -/
def variantMatches (v : StockVariant) (size : ℚ) (color : String) : Bool :=
  v.size == size && jsToLower v.color == jsToLower color

/-- A product document (the fields of `productSchema` read by the core). -/
structure Product where
  id : ℕ
  name : String
  price : ℚ
  mainImage : String
  stockVariants : List StockVariant
  totalStock : ℚ
deriving Repr, DecidableEq

/-- Sum of the variant stocks, as computed by the pre-save hook and by
`updateVariantStock` (`reduce((total, v) => total + v.stock, 0)`). -/
def sumStocks (vs : List StockVariant) : ℚ :=
  vs.foldl (fun total v => qadd total v.stock) 0

/-- `productSchema.methods.getStockForVariant`: stock of the first matching
variant, `0` when no variant matches. -/
def Product.getStockForVariant (p : Product) (size : ℚ) (color : String) : ℚ :=
  match p.stockVariants.find? (fun v => variantMatches v size color) with
  | some v => v.stock
  | none => 0

/-- Mutation of the first variant matching `(size, color)`, setting its stock
to `newStock`; `none` when no variant matches. -/
def setFirstMatch : List StockVariant → ℚ → String → ℚ → Option (List StockVariant)
  | [], _, _, _ => none
  | v :: vs, size, color, newStock =>
    if variantMatches v size color then
      some ({ v with stock := newStock } :: vs)
    else
      (setFirstMatch vs size color newStock).map (v :: ·)

/-- `productSchema.methods.updateVariantStock`: set the stock of the matching
variant and recompute `totalStock` as the sum over all variants; returns
`false` (and mutates nothing) when the variant does not exist. -/
def Product.updateVariantStock (p : Product) (size : ℚ) (color : String)
    (newStock : ℚ) : Bool × Product :=
  match setFirstMatch p.stockVariants size color newStock with
  | some vs => (true, { p with stockVariants := vs, totalStock := sumStocks vs })
  | none => (false, p)

/-- The `totalStock` part of the product schema's pre-save hook: on every
`save`, `totalStock` is recomputed as the sum of the variant stocks (the hook
also generates slug and SKUs, which the core never reads). -/
def Product.preSave (p : Product) : Product :=
  { p with totalStock := sumStocks p.stockVariants }

/-! ## The coupon model (`models/Coupon.js`) -/

/-- The `type` enum of the coupon schema. -/
inductive CouponType
  | PERCENTAGE
  | FIXED_AMOUNT
  | FREE_SHIPPING
deriving Repr, DecidableEq

/-- One entry of a coupon's `usedBy` array (`userId`, `usageCount` defaulting
to 0, `lastUsed` defaulting to now). -/
structure UsedByEntry where
  userId : ℕ
  usageCount : ℚ
  lastUsed : ℚ
deriving Repr, DecidableEq

/-- A coupon document: the fields of `couponSchema` that the core reads.
`maximumDiscountAmount` and `usageLimit` default to `null` (no limit), hence
`Option`.  `userUsageLimit` defaults to 1 and `usageCount` to 0. -/
structure Coupon where
  id : ℕ
  code : String
  type : CouponType
  value : ℚ
  minimumOrderAmount : ℚ
  maximumDiscountAmount : Option ℚ
  usageLimit : Option ℚ
  usageCount : ℚ
  userUsageLimit : ℚ
  validFrom : ℚ
  validUntil : ℚ
  isActive : Bool
  usedBy : List UsedByEntry
deriving Repr, DecidableEq

/-- `coupon.minPurchaseAmount`, as read by `validateAndCalculateOrder`
(OrderService.js line 115).  `minPurchaseAmount` is not a path of
`couponSchema` — the schema field is `minimumOrderAmount` — so the mongoose
document yields `undefined`. -/
def Coupon.minPurchaseAmount (_ : Coupon) : Option ℚ := none

/-- `coupon.usageLimitPerUser`, as read by `validateAndCalculateOrder`
(OrderService.js line 119).  `usageLimitPerUser` is not a path of
`couponSchema` — the schema field is `userUsageLimit` — so the mongoose
document yields `undefined`. -/
def Coupon.usageLimitPerUser (_ : Coupon) : Option ℚ := none

/-- `coupon.usedCount`, as read by `validateAndCalculateOrder`
(OrderService.js line 122) and incremented by `createOrder`/`confirmPayment`.
`usedCount` is not a path of `couponSchema` — the schema counter is
`usageCount` — so the mongoose document yields `undefined`, and assignments to
it are plain in-memory properties that `save` does not persist. -/
def Coupon.usedCount (_ : Coupon) : Option ℚ := none

/-- `coupon.expirationDate`, as read by `validateAndCalculateOrder`
(OrderService.js line 125).  `expirationDate` is not a path of `couponSchema`
— the validity window fields are `validFrom`/`validUntil` — so the mongoose
document yields `undefined`. -/
def Coupon.expirationDate (_ : Coupon) : Option ℚ := none

/-- The `isCurrentlyValid` virtual of the coupon schema:
`isActive && validFrom <= now && now <= validUntil`. -/
def Coupon.isCurrentlyValid (c : Coupon) (now : ℚ) : Bool :=
  c.isActive && decide (c.validFrom ≤ now) && decide (now ≤ c.validUntil)

/-- Result object of `couponSchema.methods.calculateDiscount`.  The error
branches return `{ discount: 0, error }`, leaving the other two fields
`undefined`. -/
structure CalcDiscountResult where
  discount : ℚ
  discountOnDelivery : Option ℚ
  appliedValue : Option ℚ
  error : Option String
deriving Repr, DecidableEq

/-- `couponSchema.methods.calculateDiscount(orderAmount, deliveryCharge)`:
validity and minimum-order checks, per-type discount, maximum-discount cap
(applied under JavaScript truthiness of `maximumDiscountAmount`), clamp to the
order amount, and half-up rounding of both monetary outputs to 2 decimals.
The source message interpolates the minimum amount; the text is abbreviated
here. -/
def Coupon.calculateDiscount (c : Coupon) (now orderAmount deliveryCharge : ℚ) :
    CalcDiscountResult :=
  if ¬ c.isCurrentlyValid now then
    { discount := 0, discountOnDelivery := none, appliedValue := none,
      error := some "Coupon is not valid" }
  else if orderAmount < c.minimumOrderAmount then
    { discount := 0, discountOnDelivery := none, appliedValue := none,
      error := some "Minimum order amount required" }
  else
    let discount0 : ℚ :=
      match c.type with
      | .FIXED_AMOUNT => c.value
      | .PERCENTAGE => qdiv (qmul orderAmount c.value) 100
      | .FREE_SHIPPING => 0
    let discountOnDelivery : ℚ :=
      match c.type with
      | .FREE_SHIPPING => deliveryCharge
      | _ => 0
    let discount1 : ℚ :=
      if truthyNum c.maximumDiscountAmount && jsGt (some discount0) c.maximumDiscountAmount then
        c.maximumDiscountAmount.getD 0
      else discount0
    let discount2 : ℚ := qmin discount1 orderAmount
    { discount := roundTo2 discount2,
      discountOnDelivery := some (roundTo2 discountOnDelivery),
      appliedValue := some (match c.type with | .PERCENTAGE => c.value | _ => discount2),
      error := none }

/-- The computation of `Coupon.calculateDiscount` with the two rounding sites
removed, following the specification's reading of the evaluator; used to state
what the rounding step does (first component: discount, second:
discount-on-delivery). -/
def Coupon.calculateDiscountRaw (c : Coupon) (orderAmount deliveryCharge : ℚ) : ℚ × ℚ :=
  let discount0 : ℚ :=
    match c.type with
    | .FIXED_AMOUNT => c.value
    | .PERCENTAGE => qdiv (qmul orderAmount c.value) 100
    | .FREE_SHIPPING => 0
  let discountOnDelivery : ℚ :=
    match c.type with
    | .FREE_SHIPPING => deliveryCharge
    | _ => 0
  let discount1 : ℚ :=
    if truthyNum c.maximumDiscountAmount && jsGt (some discount0) c.maximumDiscountAmount then
      c.maximumDiscountAmount.getD 0
    else discount0
  (qmin discount1 orderAmount, discountOnDelivery)

/-! ## Delivery charges and the order data model -/

/-- A delivery-charge document (`models/DeliveryCharge.js`): the fields read
by the pricing flow. -/
structure DeliveryChargeDoc where
  city : String
  state : String
  charge : ℚ
deriving Repr, DecidableEq

/-- The shipping address fields the pricing flow reads. -/
structure ShippingAddress where
  city : String
  state : String
deriving Repr, DecidableEq

/-- A cart line item as sent by the client (`item._id` is the product id).
The cart carries sizes as strings; every consumer applies `parseFloat`, so the
model holds the parsed number directly. -/
structure CartItem where
  id : ℕ
  size : ℚ
  color : String
  quantity : ℚ
deriving Repr, DecidableEq

/-- A validated order line item (the snapshot stored on the order). -/
structure OrderItem where
  productId : ℕ
  name : String
  image : String
  size : ℚ
  color : String
  quantity : ℚ
  price : ℚ
deriving Repr, DecidableEq

/-- A planned stock decrement (`productUpdates` entry). -/
structure ProductUpdate where
  productId : ℕ
  size : ℚ
  color : String
  quantity : ℚ
deriving Repr, DecidableEq

/-- The `couponUsed` snapshot stored on an order. -/
structure CouponUsed where
  couponId : ℕ
  code : String
  type : CouponType
  value : ℚ
  discountAmount : ℚ
  discountOnDelivery : ℚ
deriving Repr, DecidableEq

/-- The object returned by `validateAndCalculateOrder`. -/
structure OrderCalculation where
  validatedItems : List OrderItem
  subtotal : ℚ
  deliveryCharge : ℚ
  discountAmount : ℚ
  discountOnDelivery : ℚ
  totalAmount : ℚ
  couponUsed : Option CouponUsed
  productUpdates : List ProductUpdate
deriving Repr, DecidableEq

/-- The read-side of the document store as the pricing flow sees it. -/
structure Db where
  products : List Product
  coupons : List Coupon
  deliveryCharges : List DeliveryChargeDoc
deriving Repr, DecidableEq

/-! ## `OrderService.validateAndCalculateOrder` -/

/-- The per-item validation loop of `validateAndCalculateOrder` (lines 32–87):
validates each cart item, resolves the product and its `(size, color)` stock
variant, checks stock, and accumulates the subtotal, the validated items and
the planned stock decrements, in source order.  Error messages that the source
builds by interpolation are reproduced with the same interpolated data. -/
def processItems (db : Db) :
    List CartItem → ℚ → List OrderItem → List ProductUpdate →
    Except String (ℚ × List OrderItem × List ProductUpdate)
  | [], subtotal, validatedItems, productUpdates =>
    .ok (subtotal, validatedItems, productUpdates)
  | item :: rest, subtotal, validatedItems, productUpdates =>
    if item.id == 0 || item.quantity == 0 || item.quantity ≤ 0 then
      .error "Invalid item data provided. Missing product ID or quantity, or quantity is invalid."
    else if item.color == "" then
      .error "Invalid item data provided. Missing size or color for a product."
    else
      match db.products.find? (fun p => p.id == item.id) with
      | none => .error s!"Product with ID {item.id} not found."
      | some product =>
        if product.stockVariants.isEmpty then
          .error s!"Product {product.name} has no valid stock configuration. Stock variants are required."
        else
          let availableStock := product.getStockForVariant item.size item.color
          match product.stockVariants.find? (fun v => variantMatches v item.size item.color) with
          | none =>
            .error s!"Product {product.name} does not have a variant with Size: {item.size}, Color: {item.color}."
          | some _ =>
            if availableStock < item.quantity then
              .error s!"Insufficient stock for {product.name} (Size: {item.size}, Color: {item.color}). Available: {availableStock}, Requested: {item.quantity}"
            else
              processItems db rest
                (qadd subtotal (qmul product.price item.quantity))
                (validatedItems ++ [{ productId := product.id, name := product.name,
                                      image := product.mainImage, size := item.size,
                                      color := item.color, quantity := item.quantity,
                                      price := product.price }])
                (productUpdates ++ [{ productId := product.id, size := item.size,
                                      color := item.color, quantity := item.quantity }])

/-- Lines 130–166 of `validateAndCalculateOrder`: the per-type discount
computation, the maximum-discount cap (under JavaScript truthiness), the
`couponUsed` snapshot, and the final clamp of the discount to the subtotal.
Returns `(discountAmount, discountOnDelivery, couponUsed)`. -/
def computeCouponDiscount (coupon : Coupon) (subtotal deliveryCharge : ℚ) :
    ℚ × ℚ × CouponUsed :=
  match coupon.type with
  | .PERCENTAGE =>
    let d0 := qdiv (qmul subtotal coupon.value) 100
    let d1 := if truthyNum coupon.maximumDiscountAmount then
                qmin d0 (coupon.maximumDiscountAmount.getD 0)
              else d0
    (qmin d1 subtotal, 0,
      { couponId := coupon.id, code := coupon.code, type := .PERCENTAGE,
        value := coupon.value, discountAmount := d1, discountOnDelivery := 0 })
  | .FIXED_AMOUNT =>
    let d := qmin coupon.value subtotal
    (qmin d subtotal, 0,
      { couponId := coupon.id, code := coupon.code, type := .FIXED_AMOUNT,
        value := coupon.value, discountAmount := d, discountOnDelivery := 0 })
  | .FREE_SHIPPING =>
    (qmin 0 subtotal, deliveryCharge,
      { couponId := coupon.id, code := coupon.code, type := .FREE_SHIPPING,
        value := deliveryCharge, discountAmount := 0,
        discountOnDelivery := deliveryCharge })

/-- Lines 111–170 of `validateAndCalculateOrder`: coupon lookup
(`findOne({ code, isActive: true })`), the four rejection guards, and the
discount computation.  The four guards read `minPurchaseAmount`,
`usageLimitPerUser`, `usedCount` and `expirationDate`, none of which is a
`couponSchema` path (see the accessors above), so in the model — as in the
running code — each guard's condition is false.  Returns
`(discountAmount, discountOnDelivery, couponUsed)`. -/
def applyCouponBlock (db : Db) (now : ℚ) (couponCode : Option String)
    (userId : ℕ) (subtotal deliveryCharge : ℚ) :
    Except String (ℚ × ℚ × Option CouponUsed) :=
  match couponCode with
  | none => .ok (0, 0, none)
  | some code =>
    match db.coupons.find? (fun c => c.code == code && c.isActive) with
    | none => .error s!"Invalid coupon code: {code}"
    | some coupon =>
      if truthyNum coupon.minPurchaseAmount &&
          jsLt (some subtotal) coupon.minPurchaseAmount then
        .error s!"Coupon {coupon.code} requires a minimum purchase."
      else
        let userCouponUses : ℚ :=
          ((coupon.usedBy.filter (fun u => u.userId == userId)).length : ℕ)
        if truthyNum coupon.usageLimitPerUser &&
            jsGe (some userCouponUses) coupon.usageLimitPerUser then
          .error s!"You have already used coupon {coupon.code} the maximum number of times."
        else if truthyNum coupon.usageLimit &&
            jsGe coupon.usedCount coupon.usageLimit then
          .error s!"Coupon {coupon.code} has reached its maximum usage limit."
        else if truthyNum coupon.expirationDate &&
            jsGt (some now) coupon.expirationDate then
          .error s!"Coupon {coupon.code} has expired."
        else
          let r := computeCouponDiscount coupon subtotal deliveryCharge
          .ok (r.1, r.2.1, some r.2.2)

/-- `OrderService.validateAndCalculateOrder(items, shippingAddress,
couponCode, userId)`: item validation, subtotal, delivery-charge lookup with
a default of 50, coupon application, and
`totalAmount = Math.max(0, subtotal - discountAmount + deliveryCharge -
discountOnDelivery)`.  `now` stands for the ambient clock (`new Date()`).
The `typeof`/`isNaN` re-validations of the source cannot fail on rational
inputs and the final `totalAmount < 0` check is kept as in the source. -/
def OrderService.validateAndCalculateOrder (db : Db) (now : ℚ)
    (items : List CartItem) (shippingAddress : ShippingAddress)
    (couponCode : Option String) (userId : ℕ) :
    Except String OrderCalculation :=
  if items.isEmpty then
    .error "Order must contain at least one item."
  else
    match processItems db items 0 [] [] with
    | .error e => .error e
    | .ok (subtotal, validatedItems, productUpdates) =>
      let deliveryCharge : ℚ :=
        match db.deliveryCharges.find? (fun d =>
            d.city == jsToLower shippingAddress.city &&
            d.state == jsToLower shippingAddress.state) with
        | some doc => doc.charge
        | none => 50
      match applyCouponBlock db now couponCode userId subtotal deliveryCharge with
      | .error e => .error e
      | .ok (discountAmount, discountOnDelivery, couponUsed) =>
        let totalAmount :=
          qmax 0 (qsub (qadd (qsub subtotal discountAmount) deliveryCharge) discountOnDelivery)
        if totalAmount < 0 then .error "Invalid total amount calculated"
        else .ok { validatedItems := validatedItems, subtotal := subtotal,
                   deliveryCharge := deliveryCharge,
                   discountAmount := discountAmount,
                   discountOnDelivery := discountOnDelivery,
                   totalAmount := totalAmount, couponUsed := couponUsed,
                   productUpdates := productUpdates }

/-! ## Orders, payments and the mutable world

`confirmPayment` and `cancelOrder` read and write products, coupons and
orders.  A `World` holds the three collections; `save` on a document replaces
the stored document with the same id (for products it also runs the pre-save
hook).  The payment gateway's HMAC and refund calls are function
parameters. -/

/-- The `payment.status` enum of the order schema. -/
inductive PaymentStatus
  | PENDING
  | PAID
  | FAILED
  | REFUNDED
deriving Repr, DecidableEq

/-- The `payment.method` enum of the order schema. -/
inductive PaymentMethod
  | COD
  | RAZORPAY
deriving Repr, DecidableEq

/-- The order `status` enum. -/
inductive OrderStatus
  | PENDING
  | CONFIRMED
  | PROCESSING
  | SHIPPED
  | DELIVERED
  | CANCELLED
deriving Repr, DecidableEq

/-- The payment sub-document of an order. -/
structure Payment where
  method : PaymentMethod
  status : PaymentStatus
  razorpayOrderId : Option String
  razorpayPaymentId : Option String
  razorpaySignature : Option String
  failureReason : Option String
deriving Repr, DecidableEq

/-- An order document (the fields of `orderSchema` the core reads and
writes).  `paidAt`, set by `confirmPayment`, is not a path of `orderSchema`
and is never persisted, so it does not appear here. -/
structure Order where
  id : ℕ
  userId : ℕ
  items : List OrderItem
  subtotal : ℚ
  deliveryCharge : ℚ
  discountAmount : ℚ
  discountOnDelivery : ℚ
  totalAmount : ℚ
  couponUsed : Option CouponUsed
  payment : Payment
  status : OrderStatus
  confirmedAt : Option ℚ
  cancelledAt : Option ℚ
deriving Repr, DecidableEq

/-- The document store shared by the stateful operations. -/
structure World where
  products : List Product
  coupons : List Coupon
  orders : List Order
deriving Repr, DecidableEq

/-- `product.save()`: replace the stored product with the same id, running
the product schema's pre-save hook. -/
def saveProduct (products : List Product) (p : Product) : List Product :=
  products.map (fun q => if q.id == p.id then p.preSave else q)

/-- `coupon.save()`: replace the stored coupon with the same id. -/
def saveCoupon (coupons : List Coupon) (c : Coupon) : List Coupon :=
  coupons.map (fun q => if q.id == c.id then c else q)

/-- `order.save()`: replace the stored order with the same id (the order
schema's pre-save hook only generates `orderNumber`, outside this model). -/
def saveOrder (w : World) (o : Order) : World :=
  { w with orders := w.orders.map (fun q => if q.id == o.id then o else q) }

/-- Truthiness of a possibly-`undefined` JavaScript string: `undefined` and
the empty string are falsy. -/
def truthyStr : Option String → Bool
  | none => false
  | some s => s != ""

/-- `PaymentService.verifyPaymentSignature(orderId, paymentId, signature)`:
recompute the hex HMAC-SHA256 of `` `${orderId}|${paymentId}` `` under the
gateway secret and compare it to the supplied signature.  `hmacHex` abstracts
`crypto.createHmac("sha256", RAZORPAY_KEY_SECRET)...digest("hex")`. -/
def PaymentService.verifyPaymentSignature (hmacHex : String → String)
    (razorpayOrderId razorpayPaymentId razorpaySignature : String) : Bool :=
  hmacHex (razorpayOrderId ++ "|" ++ razorpayPaymentId) == razorpaySignature

/-- The payment payload passed to `confirmPayment`
(`razorpay_payment_id`, `razorpay_signature`). -/
structure PaymentData where
  paymentId : String
  signature : String
deriving Repr, DecidableEq

/-- The stock-update loop shared by `createOrder` and `confirmPayment`
(OrderService.js lines 348–367): for each line item, look the product up, read
the variant's current stock, and set it to `current - quantity` via
`updateVariantStock`, saving the product when the variant exists.  Items whose
product is missing are only logged. -/
def applyStockDecrements (products : List Product) : List OrderItem → List Product
  | [] => products
  | item :: rest =>
    match products.find? (fun p => p.id == item.productId) with
    | none => applyStockDecrements products rest
    | some product =>
      let currentStock := product.getStockForVariant item.size item.color
      let r := product.updateVariantStock item.size item.color (qsub currentStock item.quantity)
      if r.1 then applyStockDecrements (saveProduct products r.2) rest
      else applyStockDecrements products rest

/-- The coupon-usage update of `confirmPayment` (lines 369–377):
`coupon.usedCount += 1` targets a property that is not a `couponSchema` path
(the schema counter is `usageCount`), so `save` does not persist it; the
persisted mutation is the `usedBy` push, whose subdocument cast keeps
`userId`, drops the unknown `orderId`, and fills the defaults
(`usageCount: 0`, `lastUsed: now`). -/
def applyCouponUsage (now : ℚ) (coupons : List Coupon) (order : Order) : List Coupon :=
  match order.couponUsed with
  | none => coupons
  | some cu =>
    match coupons.find? (fun c => c.id == cu.couponId) with
    | none => coupons
    | some coupon =>
      saveCoupon coupons { coupon with usedBy := coupon.usedBy ++ [⟨order.userId, 0, now⟩] }

/-- `OrderService.confirmPayment(razorpayOrderId, paymentData)`: find the
order by `payment.razorpayOrderId`; on an invalid signature set the payment to
`FAILED` with a failure reason, save, and throw; on a valid signature set the
payment to `PAID` and the order to `CONFIRMED`, stamp `confirmedAt`
(`paidAt` targets a non-schema path and is dropped by `save`), run the stock
decrement loop, apply the coupon usage update, and save the order.  The
returned pair is the post-state of the store and the thrown/returned
result. -/
def OrderService.confirmPayment (hmacHex : String → String) (now : ℚ)
    (w : World) (razorpayOrderId : String) (paymentData : PaymentData) :
    World × Except String Order :=
  match w.orders.find? (fun o => o.payment.razorpayOrderId == some razorpayOrderId) with
  | none => (w, .error "Order not found for payment verification.")
  | some order =>
    if ¬ PaymentService.verifyPaymentSignature hmacHex razorpayOrderId
        paymentData.paymentId paymentData.signature then
      let payment1 := { order.payment with
        status := PaymentStatus.FAILED,
        failureReason := some "Invalid payment signature" }
      let order1 := { order with payment := payment1 }
      (saveOrder w order1, .error "Invalid payment signature.")
    else
      let payment1 := { order.payment with
        status := PaymentStatus.PAID,
        razorpayPaymentId := some paymentData.paymentId,
        razorpaySignature := some paymentData.signature }
      let order1 := { order with
        status := OrderStatus.CONFIRMED,
        confirmedAt := some now,
        payment := payment1 }
      let products1 := applyStockDecrements w.products order1.items
      let coupons1 := applyCouponUsage now w.coupons order1
      (saveOrder { w with products := products1, coupons := coupons1 } order1, .ok order1)

/-- Result object of `PaymentService.refundPayment`. -/
structure RefundResult where
  success : Bool
  refundId : Option String
  error : Option String
deriving Repr, DecidableEq

/-- The stock-reversion loop of `cancelOrder` (lines 453–470): for each line
item with an existing product, the source reads `product.variants` —
`variants` is not a path of `productSchema` (the stock lives in
`stockVariants`) — so the mongoose document yields `undefined` and
`.findIndex` throws a TypeError, aborting `cancelOrder` before `order.save()`;
items whose product is missing are only logged and skipped.  No document is
written before the throw, so the store is returned unchanged whenever some
item's product exists. -/
def cancelStockReversion (w : World) (order : Order) : World × Except String Order :=
  if order.items.any (fun item => (w.products.find? (fun p => p.id == item.productId)).isSome) then
    (w, .error "TypeError: product.variants is undefined")
  else
    (saveOrder w order, .ok order)

/-- `OrderService.cancelOrder(orderId, userId)`: find the order owned by the
user; reject unless its status is `PENDING` or `CONFIRMED`; set `CANCELLED`
and stamp `cancelledAt`; if the payment was `PAID` with a gateway payment id,
call the gateway refund (a parameter here), failing the cancellation if the
refund fails and setting the payment to `REFUNDED` on success; then run the
stock-reversion loop and save.  The returned pair is the post-state of the
store and the thrown/returned result. -/
def OrderService.cancelOrder (refundPayment : String → ℚ → String → RefundResult)
    (now : ℚ) (w : World) (orderId : ℕ) (userId : ℕ) :
    World × Except String Order :=
  match w.orders.find? (fun o => o.id == orderId && o.userId == userId) with
  | none => (w, .error "Order not found or you do not have permission to cancel this order.")
  | some order =>
    if order.status != .PENDING && order.status != .CONFIRMED then
      (w, .error "Order cannot be cancelled. It is already being processed or delivered.")
    else
      let order1 := { order with status := .CANCELLED, cancelledAt := some now }
      if order.payment.status == .PAID && truthyStr order.payment.razorpayPaymentId then
        let rr := refundPayment (order.payment.razorpayPaymentId.getD "")
          order.totalAmount "Order cancelled by user"
        if rr.success then
          let payment2 := { order1.payment with status := PaymentStatus.REFUNDED }
          cancelStockReversion w { order1 with payment := payment2 }
        else
          let errMsg := rr.error.getD ""
          (w, .error s!"Order cancellation processed, but refund failed: {errMsg}. Please contact support.")
      else
        cancelStockReversion w order1

/-! ## Supporting lemmas -/

theorem setFirstMatch_eq_none_of (vs : List StockVariant) (s : ℚ) (c : String) (ns : ℚ)
    (h : ∀ v ∈ vs, variantMatches v s c = false) :
    setFirstMatch vs s c ns = none := by
  induction vs with
  | nil => rfl
  | cons v vs ih =>
    rw [setFirstMatch, if_neg (by simp [h v (List.mem_cons_self v vs)]),
      ih (fun u hu => h u (List.mem_cons_of_mem v hu))]
    rfl

theorem variantMatches_congr (v : StockVariant) (s : ℚ) (c c' : String)
    (h : jsToLower c = jsToLower c') :
    variantMatches v s c = variantMatches v s c' := by
  unfold variantMatches
  rw [h]

theorem find?_variant_congr (vs : List StockVariant) (s : ℚ) (c c' : String)
    (h : jsToLower c = jsToLower c') :
    vs.find? (fun v => variantMatches v s c) = vs.find? (fun v => variantMatches v s c') := by
  induction vs with
  | nil => rfl
  | cons v vs ih =>
    rw [List.find?_cons, List.find?_cons, variantMatches_congr v s c c' h, ih]

theorem setFirstMatch_congr (vs : List StockVariant) (s : ℚ) (c c' : String) (ns : ℚ)
    (h : jsToLower c = jsToLower c') :
    setFirstMatch vs s c ns = setFirstMatch vs s c' ns := by
  induction vs with
  | nil => rfl
  | cons v vs ih =>
    rw [setFirstMatch, setFirstMatch, variantMatches_congr v s c c' h, ih]

/-! ## The claims -/

/-- C8: for every product, after every variant stock mutation
(`updateVariantStock` or the pre-save hook run by `save`), the product's
`totalStock` equals the sum of the stock counts of all its `stockVariants`;
when `updateVariantStock` finds no variant it mutates nothing at all. -/
theorem totalStock_invariant (p : Product) (s : ℚ) (c : String) (ns : ℚ) :
    ((p.updateVariantStock s c ns).1 = true →
      (p.updateVariantStock s c ns).2.totalStock =
        sumStocks (p.updateVariantStock s c ns).2.stockVariants)
    ∧ ((p.updateVariantStock s c ns).1 = false →
      (p.updateVariantStock s c ns).2 = p)
    ∧ p.preSave.totalStock = sumStocks p.preSave.stockVariants := by
  unfold Product.updateVariantStock Product.preSave
  cases h : setFirstMatch p.stockVariants s c ns <;> simp

/-- A sample product used by the witnesses. -/
def sampleProduct : Product :=
  ⟨1, "Runner", 100, "img", [⟨9, "Black", 10⟩, ⟨8, "Red", 5⟩], 15⟩

/-- Witness for C8: a successful mutation on a concrete product re-establishes
the invariant. -/
theorem totalStock_invariant_witness :
    (sampleProduct.updateVariantStock 9 "black" 4).1 = true ∧
    (sampleProduct.updateVariantStock 9 "black" 4).2.totalStock =
      sumStocks (sampleProduct.updateVariantStock 9 "black" 4).2.stockVariants ∧
    sampleProduct.preSave.totalStock = sumStocks sampleProduct.preSave.stockVariants :=
  ⟨by decide,
   (totalStock_invariant sampleProduct 9 "black" 4).1 (by decide),
   (totalStock_invariant sampleProduct 9 "black" 4).2.2⟩

/-- C10: for every product and `(size, color)` pair matched by no stock
variant (size equal, color equal up to case), `getStockForVariant` returns 0
and `updateVariantStock` returns `false` leaving the product unchanged; and
both operations depend on the color only through its lowercasing, i.e. color
matching is case-insensitive. -/
theorem missing_variant_and_case_insensitivity (p : Product) (s : ℚ) (c c' : String) (ns : ℚ) :
    ((∀ v ∈ p.stockVariants, ¬(v.size = s ∧ jsToLower v.color = jsToLower c)) →
      p.getStockForVariant s c = 0 ∧ p.updateVariantStock s c ns = (false, p))
    ∧ (jsToLower c = jsToLower c' →
      p.getStockForVariant s c = p.getStockForVariant s c' ∧
      p.updateVariantStock s c ns = p.updateVariantStock s c' ns) := by
  constructor
  · intro h
    have hb : ∀ v ∈ p.stockVariants, variantMatches v s c = false := by
      intro v hv
      have := h v hv
      unfold variantMatches
      simp only [Bool.and_eq_false_iff, beq_eq_false_iff_ne, ne_eq]
      by_cases hs : v.size = s
      · exact Or.inr (fun hc => this ⟨hs, hc⟩)
      · exact Or.inl hs
    constructor
    · unfold Product.getStockForVariant
      rw [List.find?_eq_none.mpr (by intro v hv; simp [hb v hv])]
    · unfold Product.updateVariantStock
      rw [setFirstMatch_eq_none_of p.stockVariants s c ns hb]
  · intro h
    constructor
    · unfold Product.getStockForVariant
      rw [find?_variant_congr p.stockVariants s c c' h]
    · unfold Product.updateVariantStock
      rw [setFirstMatch_congr p.stockVariants s c c' ns h]

/-- Witness for C10: on a concrete product, an unmatched `(size, color)` pair
reads stock 0 and mutates nothing, and differently-cased colors behave
identically. -/
theorem missing_variant_and_case_insensitivity_witness :
    (sampleProduct.getStockForVariant 7 "green" = 0 ∧
      sampleProduct.updateVariantStock 7 "green" 3 = (false, sampleProduct)) ∧
    (sampleProduct.getStockForVariant 9 "BLACK" = sampleProduct.getStockForVariant 9 "black" ∧
      sampleProduct.updateVariantStock 9 "BLACK" 3 = sampleProduct.updateVariantStock 9 "black" 3) :=
  ⟨(missing_variant_and_case_insensitivity sampleProduct 7 "green" "green" 3).1 (by decide),
   (missing_variant_and_case_insensitivity sampleProduct 9 "BLACK" "black" 3).2 (by decide)⟩

/-- C1: every calculation returned by `validateAndCalculateOrder` satisfies
`totalAmount = max(0, subtotal - discountAmount + deliveryCharge -
discountOnDelivery)`, and in particular `totalAmount` is non-negative. -/
theorem totalAmount_correct (db : Db) (now : ℚ) (items : List CartItem)
    (addr : ShippingAddress) (couponCode : Option String) (userId : ℕ)
    (r : OrderCalculation)
    (h : OrderService.validateAndCalculateOrder db now items addr couponCode userId = .ok r) :
    r.totalAmount =
      max 0 (r.subtotal - r.discountAmount + r.deliveryCharge - r.discountOnDelivery) ∧
    0 ≤ r.totalAmount := by
  unfold OrderService.validateAndCalculateOrder at h
  split at h
  · exact Except.noConfusion h
  · split at h
    · exact Except.noConfusion h
    · split at h
      all_goals
        try dsimp only at h
        split at h
        · exact Except.noConfusion h
        · try dsimp only at h
          split at h
          · exact Except.noConfusion h
          · obtain rfl := Except.ok.inj h
            exact ⟨by dsimp only; rw [qmax_eq, qsub_eq, qadd_eq, qsub_eq],
                   by dsimp only; rw [qmax_eq]; exact le_max_left 0 _⟩

/-- Witness inputs for C1: a one-product catalog and a two-unit cart. -/
def c1Db : Db := ⟨[⟨1, "Shoe", 1000, "img", [⟨9, "Black", 10⟩], 10⟩], [], []⟩

/-- The calculation the pricing flow returns on the C1 witness inputs. -/
def c1Result : OrderCalculation :=
  { validatedItems := [⟨1, "Shoe", "img", 9, "black", 2, 1000⟩],
    subtotal := 2000, deliveryCharge := 50, discountAmount := 0,
    discountOnDelivery := 0, totalAmount := 2050, couponUsed := none,
    productUpdates := [⟨1, 9, "black", 2⟩] }

/-- Witness for C1: the concrete run of scenario A (item priced 1000,
quantity 2, default delivery charge 50, no coupon) totals 2050. -/
theorem totalAmount_correct_witness :
    c1Result.totalAmount =
      max 0 (c1Result.subtotal - c1Result.discountAmount + c1Result.deliveryCharge -
        c1Result.discountOnDelivery) ∧
    0 ≤ c1Result.totalAmount :=
  totalAmount_correct c1Db 100 [⟨1, 9, "black", 2⟩] ⟨"c", "s"⟩ none 7 c1Result (by decide)

/-- C5: the discount computed by the pricing flow's coupon step: for
`PERCENTAGE`, `subtotal * value / 100`, clamped to `maximumDiscountAmount`
when that is set (truthy) and then to the subtotal; for `FIXED_AMOUNT`,
`min(value, subtotal)`; for `FREE_SHIPPING`, a delivery discount equal to the
delivery charge and a discount of 0. -/
theorem coupon_discount_formula (coupon : Coupon) (subtotal deliveryCharge : ℚ)
    (h0 : 0 ≤ subtotal) :
    (coupon.type = CouponType.PERCENTAGE → coupon.maximumDiscountAmount = none →
      (computeCouponDiscount coupon subtotal deliveryCharge).1 =
        min (subtotal * coupon.value / 100) subtotal)
    ∧ (∀ m : ℚ, coupon.type = CouponType.PERCENTAGE →
      coupon.maximumDiscountAmount = some m → m ≠ 0 →
      (computeCouponDiscount coupon subtotal deliveryCharge).1 =
        min (min (subtotal * coupon.value / 100) m) subtotal)
    ∧ (coupon.type = CouponType.FIXED_AMOUNT →
      (computeCouponDiscount coupon subtotal deliveryCharge).1 = min coupon.value subtotal)
    ∧ (coupon.type = CouponType.FREE_SHIPPING →
      (computeCouponDiscount coupon subtotal deliveryCharge).2.1 = deliveryCharge ∧
      (computeCouponDiscount coupon subtotal deliveryCharge).1 = 0) := by
  obtain ⟨cid, ccode, cty, cval, cmin, cmax, culim, ccount, cuser, cfrom, cuntil, cact, cused⟩ :=
    coupon
  refine ⟨?_, ?_, ?_, ?_⟩
  · rintro rfl rfl
    simp only [computeCouponDiscount, truthyNum, Bool.false_eq_true, if_false,
      qmin_eq, qdiv_eq, qmul_eq]
  · rintro m rfl rfl hm
    simp only [computeCouponDiscount, truthyNum, bne_iff_ne, ne_eq, hm,
      not_false_eq_true, if_true, Option.getD_some, qmin_eq, qdiv_eq, qmul_eq]
  · rintro rfl
    simp only [computeCouponDiscount, qmin_eq]
    rw [min_assoc, min_self]
  · rintro rfl
    simp only [computeCouponDiscount, qmin_eq]
    exact ⟨by trivial, min_eq_left h0⟩

/-- A percentage coupon without a cap, for the C5 witness. -/
def c5pct : Coupon := ⟨11, "PCT10", .PERCENTAGE, 10, 0, none, none, 0, 1, 0, 1000, true, []⟩

/-- A percentage coupon capped at 150, for the C5 witness. -/
def c5pctCap : Coupon := ⟨12, "PCTCAP", .PERCENTAGE, 10, 0, some 150, none, 0, 1, 0, 1000, true, []⟩

/-- A fixed-amount coupon, for the C5 witness. -/
def c5fix : Coupon := ⟨13, "FIX500", .FIXED_AMOUNT, 500, 0, none, none, 0, 1, 0, 1000, true, []⟩

/-- A free-shipping coupon, for the C5 witness. -/
def c5free : Coupon := ⟨14, "SHIP", .FREE_SHIPPING, 0, 0, none, none, 0, 1, 0, 1000, true, []⟩

/-- Witness for C5: the four coupon shapes evaluated at subtotal 2000 and
delivery charge 50. -/
theorem coupon_discount_formula_witness :
    (computeCouponDiscount c5pct 2000 50).1 = min (2000 * c5pct.value / 100) 2000 ∧
    (computeCouponDiscount c5pctCap 2000 50).1 =
      min (min (2000 * c5pctCap.value / 100) 150) 2000 ∧
    (computeCouponDiscount c5fix 2000 50).1 = min c5fix.value 2000 ∧
    ((computeCouponDiscount c5free 2000 50).2.1 = 50 ∧
      (computeCouponDiscount c5free 2000 50).1 = 0) :=
  ⟨(coupon_discount_formula c5pct 2000 50 (by norm_num)).1 rfl rfl,
   (coupon_discount_formula c5pctCap 2000 50 (by norm_num)).2.1 150 rfl rfl (by norm_num),
   (coupon_discount_formula c5fix 2000 50 (by norm_num)).2.2.1 rfl,
   (coupon_discount_formula c5free 2000 50 (by norm_num)).2.2.2 rfl⟩

/-- C9 (amended): the coupon model's `calculateDiscount` rounds both of its
monetary outputs to 2 decimal places half-up — they equal the half-up
rounding of the unrounded evaluation — but this method is not what
`validateAndCalculateOrder` runs (see
`pricing_flow_discount_not_rounded`). -/
theorem calculateDiscount_rounds (c : Coupon) (now orderAmount deliveryCharge : ℚ)
    (h : (c.calculateDiscount now orderAmount deliveryCharge).error = none) :
    (c.calculateDiscount now orderAmount deliveryCharge).discount =
      roundTo2 (c.calculateDiscountRaw orderAmount deliveryCharge).1 ∧
    (c.calculateDiscount now orderAmount deliveryCharge).discountOnDelivery =
      some (roundTo2 (c.calculateDiscountRaw orderAmount deliveryCharge).2) ∧
    ∀ q : ℚ, roundTo2 q = (⌊q * 100 + 1/2⌋ : ℚ) / 100 := by
  unfold Coupon.calculateDiscount at h ⊢
  unfold Coupon.calculateDiscountRaw
  split_ifs at h ⊢
  exact ⟨by rfl, by rfl, roundTo2_eq⟩

/-- The coupon of the C9 counterexample: 5 percent off. -/
def c9Coupon : Coupon := ⟨9, "PCT5", .PERCENTAGE, 5, 0, none, none, 0, 1, 0, 1000000, true, []⟩

/-- The catalog of the C9 counterexample: one product priced 30.1. -/
def c9Db : Db := ⟨[⟨1, "Shoe", mkRat 301 10, "img", [⟨9, "Black", 10⟩], 10⟩], [c9Coupon], []⟩

/-- C9 (counterexample): the coupon evaluation the order pricing flow actually
uses is unrounded — on a subtotal of 30.1 with a 5-percent coupon it returns
a discount of 1.505, which half-up rounding to 2 decimals would change. -/
theorem pricing_flow_discount_not_rounded :
    (OrderService.validateAndCalculateOrder c9Db 100 [⟨1, 9, "black", 1⟩] ⟨"c", "s"⟩
        (some "PCT5") 7).map (fun r => r.discountAmount) = .ok (mkRat 1505 1000) ∧
    roundTo2 (mkRat 1505 1000) ≠ mkRat 1505 1000 := by decide

/-- Witness for the amended C9: a concrete valid evaluation of
`calculateDiscount` whose outputs are the rounded raw values. -/
theorem calculateDiscount_rounds_witness :
    (c9Coupon.calculateDiscount 50 (mkRat 301 10) 50).discount =
      roundTo2 (c9Coupon.calculateDiscountRaw (mkRat 301 10) 50).1 ∧
    (c9Coupon.calculateDiscount 50 (mkRat 301 10) 50).discountOnDelivery =
      some (roundTo2 (c9Coupon.calculateDiscountRaw (mkRat 301 10) 50).2) :=
  ⟨(calculateDiscount_rounds c9Coupon 50 (mkRat 301 10) 50 (by decide)).1,
   (calculateDiscount_rounds c9Coupon 50 (mkRat 301 10) 50 (by decide)).2.1⟩

/-- C7: when payment confirmation is invoked on a pending order with a
signature that does not match the HMAC of `razorpayOrderId|paymentId` under
the shared secret, the operation throws, the order's payment becomes `FAILED`
with a failure reason, its status stays `PENDING`, and no product (stock) or
coupon document is touched. -/
theorem invalid_signature_marks_failed (hmacHex : String → String) (now : ℚ) (w : World)
    (rzpId : String) (pd : PaymentData) (order : Order)
    (hfind : w.orders.find? (fun o => o.payment.razorpayOrderId == some rzpId) = some order)
    (hstatus : order.status = OrderStatus.PENDING)
    (hsig : hmacHex (rzpId ++ "|" ++ pd.paymentId) ≠ pd.signature) :
    (∃ e, (OrderService.confirmPayment hmacHex now w rzpId pd).2 = Except.error e) ∧
    (OrderService.confirmPayment hmacHex now w rzpId pd).1.products = w.products ∧
    (OrderService.confirmPayment hmacHex now w rzpId pd).1.coupons = w.coupons ∧
    (∃ q ∈ (OrderService.confirmPayment hmacHex now w rzpId pd).1.orders,
      q.id = order.id ∧ q.status = OrderStatus.PENDING ∧
      q.payment.status = PaymentStatus.FAILED ∧
      q.payment.failureReason = some "Invalid payment signature") ∧
    (∀ q ∈ (OrderService.confirmPayment hmacHex now w rzpId pd).1.orders,
      q.id = order.id →
      q.status = OrderStatus.PENDING ∧ q.payment.status = PaymentStatus.FAILED ∧
      q.payment.failureReason = some "Invalid payment signature") := by
  have hv : PaymentService.verifyPaymentSignature hmacHex rzpId pd.paymentId pd.signature = false := by
    unfold PaymentService.verifyPaymentSignature
    exact beq_eq_false_iff_ne.mpr hsig
  have hcond : ¬ (PaymentService.verifyPaymentSignature hmacHex rzpId pd.paymentId pd.signature = true) := by
    rw [hv]; exact Bool.false_ne_true
  simp only [OrderService.confirmPayment, hfind, hcond, Bool.false_eq_true,
    not_false_eq_true, if_true, saveOrder]
  refine ⟨⟨_, rfl⟩, trivial, trivial, ?_, ?_⟩
  · have hmem : order ∈ w.orders := List.mem_of_find?_eq_some hfind
    refine ⟨_, List.mem_map_of_mem _ hmem, ?_⟩
    simp [hstatus]
  · intro q hq hid
    obtain ⟨p0, hp0, rfl⟩ := List.mem_map.mp hq
    by_cases hb : (p0.id == order.id) = true
    · simp [hb, hstatus]
    · simp only [hb, Bool.false_eq_true, if_false] at hid
      exact absurd (by simp [hid]) hb

/-- The pending gateway order of the C7 witness. -/
def c7Order : Order :=
  { id := 100, userId := 7, items := [⟨1, "Runner", "img", 9, "Black", 2, 1000⟩],
    subtotal := 2000, deliveryCharge := 50, discountAmount := 0,
    discountOnDelivery := 0, totalAmount := 2050, couponUsed := none,
    payment := ⟨.RAZORPAY, .PENDING, some "rzp7", none, none, none⟩,
    status := .PENDING, confirmedAt := none, cancelledAt := none }

/-- The store of the C7 witness. -/
def c7World : World := ⟨[⟨1, "Runner", 1000, "img", [⟨9, "Black", 10⟩], 10⟩], [], [c7Order]⟩

/-- A concrete stand-in for the gateway's hex HMAC-SHA256 under the shared
secret, used by the C7 witness. -/
def c7Hmac : String → String := fun s => "sig:" ++ s

/-- Witness for C7: a confirmation attempt with a wrong signature on a
concrete pending order leaves products and coupons untouched. -/
theorem invalid_signature_marks_failed_witness :
    (OrderService.confirmPayment c7Hmac 500 c7World "rzp7" ⟨"pay1", "wrong"⟩).1.products =
      c7World.products ∧
    (OrderService.confirmPayment c7Hmac 500 c7World "rzp7" ⟨"pay1", "wrong"⟩).1.coupons =
      c7World.coupons :=
  ⟨(invalid_signature_marks_failed c7Hmac 500 c7World "rzp7" ⟨"pay1", "wrong"⟩ c7Order
      (by decide) (by decide) (by decide)).2.1,
   (invalid_signature_marks_failed c7Hmac 500 c7World "rzp7" ⟨"pay1", "wrong"⟩ c7Order
      (by decide) (by decide) (by decide)).2.2.1⟩

/-- The coupon snapshot used by the C2 order. -/
def c2Coupon : Coupon := ⟨5, "SAVE10", .PERCENTAGE, 10, 0, none, none, 0, 1, 0, 1000000, true, []⟩

/-- A pending gateway order holding a 10-percent coupon, for C2. -/
def c2Order : Order :=
  { id := 100, userId := 7, items := [⟨1, "Runner", "img", 9, "Black", 2, 1000⟩],
    subtotal := 2000, deliveryCharge := 50, discountAmount := 200,
    discountOnDelivery := 0, totalAmount := 1850,
    couponUsed := some ⟨5, "SAVE10", .PERCENTAGE, 10, 200, 0⟩,
    payment := ⟨.RAZORPAY, .PENDING, some "rzp1", none, none, none⟩,
    status := .PENDING, confirmedAt := none, cancelledAt := none }

/-- The store of the C2 run: variant stock 10 before any confirmation. -/
def c2World : World := ⟨[⟨1, "Runner", 1000, "img", [⟨9, "Black", 10⟩], 10⟩], [c2Coupon], [c2Order]⟩

/-- A concrete stand-in for the gateway's hex HMAC under the shared secret,
for C2. -/
def c2Hmac : String → String := fun s => "sig:" ++ s

/-- A payment payload whose signature is valid for order `rzp1` under
`c2Hmac`. -/
def c2Pd : PaymentData := ⟨"pay1", "sig:rzp1|pay1"⟩

/-- The store after one payment confirmation of the C2 order. -/
def c2World1 : World := (OrderService.confirmPayment c2Hmac 500 c2World "rzp1" c2Pd).1

/-- The store after confirming the same payment a second time, with the same
valid signature. -/
def c2World2 : World := (OrderService.confirmPayment c2Hmac 600 c2World1 "rzp1" c2Pd).1

/-- C2 (failing run): `confirmPayment` has no guard on the current payment
status, so invoking it twice with the same valid signature applies the stock
decrement twice (10 → 8 → 6 for an ordered quantity of 2) and records the
coupon usage twice (`usedBy` grows 0 → 1 → 2); the second invocation also
succeeds rather than being a no-op. -/
theorem confirmPayment_not_idempotent :
    ((c2World1.products.find? (fun p => p.id == 1)).map
        (fun p => p.getStockForVariant 9 "Black") = some 8) ∧
    ((c2World1.coupons.find? (fun c => c.id == 5)).map
        (fun c => c.usedBy.length) = some 1) ∧
    ((c2World2.products.find? (fun p => p.id == 1)).map
        (fun p => p.getStockForVariant 9 "Black") = some 6) ∧
    ((c2World2.coupons.find? (fun c => c.id == 5)).map
        (fun c => c.usedBy.length) = some 2) ∧
    (OrderService.confirmPayment c2Hmac 600 c2World1 "rzp1" c2Pd).2.isOk = true := by decide

/-- A confirmed, unpaid (cash-on-delivery) order for C3. -/
def c3Order : Order :=
  { id := 100, userId := 7, items := [⟨1, "Runner", "img", 9, "Black", 2, 1000⟩],
    subtotal := 2000, deliveryCharge := 50, discountAmount := 0,
    discountOnDelivery := 0, totalAmount := 2050, couponUsed := none,
    payment := ⟨.COD, .PENDING, none, none, none, none⟩,
    status := .CONFIRMED, confirmedAt := some 10, cancelledAt := none }

/-- The store of the C3 run: the ordered variant currently holds stock 8. -/
def c3World : World := ⟨[⟨1, "Runner", 1000, "img", [⟨9, "Black", 8⟩], 8⟩], [], [c3Order]⟩

/-- A refund stub that always succeeds (not reached in the C3 run, whose
order is unpaid). -/
def c3Refund : String → ℚ → String → RefundResult := fun _ _ _ => ⟨true, some "ref1", none⟩

/-- C3 (failing run): cancelling a confirmed order whose line item's product
exists throws — the reversion loop reads `product.variants`, which is not a
path of the product schema (the stock lives in `stockVariants`), so
`.findIndex` is called on `undefined` — and the store is left completely
unchanged: no variant stock is increased and the order is not even saved as
cancelled. -/
theorem cancelOrder_stock_not_reverted :
    OrderService.cancelOrder c3Refund 700 c3World 100 7 =
      (c3World, .error "TypeError: product.variants is undefined") := by decide

/-- The C4 coupon: global usage limit 1 already consumed (`usageCount = 1`)
and per-user limit 1 already consumed by user 7 (one `usedBy` entry). -/
def c4Coupon : Coupon :=
  ⟨5, "LIMITED", .FIXED_AMOUNT, 100, 0, none, some 1, 1, 1, 0, 1000000, true, [⟨7, 1, 0⟩]⟩

/-- The catalog and coupon list of the C4 run. -/
def c4Db : Db := ⟨[⟨1, "Runner", 1000, "img", [⟨9, "Black", 10⟩], 10⟩], [c4Coupon], []⟩

/-- C4 (failing run): the pricing flow's usage-limit guards read
`coupon.usageLimitPerUser` and `coupon.usedCount`, neither of which is a
coupon schema path (the schema fields are `userUsageLimit` and `usageCount`),
so a coupon whose global usage count equals its usage limit — and whose
per-user count equals the per-user limit for the requesting user — is still
accepted and discounts the order. -/
theorem usage_limits_not_enforced :
    (c4Coupon.usageLimit = some 1 ∧ c4Coupon.usageCount = 1 ∧
      c4Coupon.userUsageLimit = 1 ∧
      (c4Coupon.usedBy.filter (fun u => u.userId == 7)).length = 1) ∧
    (OrderService.validateAndCalculateOrder c4Db 100 [⟨1, 9, "black", 1⟩] ⟨"c", "s"⟩
        (some "LIMITED") 7).map (fun r => (r.discountAmount, r.totalAmount)) =
      .ok (100, 950) := by decide

/-- The C6 expired coupon: validity window `[0, 100]`. -/
def c6Expired : Coupon := ⟨6, "OLD", .FIXED_AMOUNT, 100, 0, none, none, 0, 1, 0, 100, true, []⟩

/-- The C6 not-yet-valid coupon: validity window `[300, 400]`. -/
def c6Future : Coupon := ⟨7, "SOON", .FIXED_AMOUNT, 100, 0, none, none, 0, 1, 300, 400, true, []⟩

/-- The catalog and coupon list of the C6 runs. -/
def c6Db : Db :=
  ⟨[⟨1, "Runner", 1000, "img", [⟨9, "Black", 10⟩], 10⟩], [c6Expired, c6Future], []⟩

/-- C6 (failing run): at time 200 both coupons are outside their validity
windows (`isCurrentlyValid` is false), yet the pricing flow accepts both and
applies their discounts — its expiry guard reads `coupon.expirationDate`,
which is not a coupon schema path (the schema fields are
`validFrom`/`validUntil`), and no guard reads `validFrom` at all. -/
theorem validity_window_not_enforced :
    (c6Expired.isCurrentlyValid 200 = false ∧ c6Future.isCurrentlyValid 200 = false) ∧
    (OrderService.validateAndCalculateOrder c6Db 200 [⟨1, 9, "black", 1⟩] ⟨"c", "s"⟩
        (some "OLD") 7).map (fun r => r.discountAmount) = .ok 100 ∧
    (OrderService.validateAndCalculateOrder c6Db 200 [⟨1, 9, "black", 1⟩] ⟨"c", "s"⟩
        (some "SOON") 7).map (fun r => r.discountAmount) = .ok 100 := by decide

end ShoeStore
